import Mathlib

/-!
Shallow embedding of the grip-and-trick state machinery of the bmXr
repository: the per-hand proximity/attachment tracker (GripSystem.ts,
the version with attachment fields) and the barspin trick state machine
(BarspinMechanic, in context.ts), together with the event-emission loop
shared by both systems.

Conventions of the embedding:
* machine numbers (times in ms, distances in meters, progress fractions)
  are rationals; the source uses JS doubles but every constant appearing
  in the modelled logic (0.1, 0.08, 500, 400, 600, 0.8, 1500, 2000) is
  exactly representable, and no modelled computation can overflow or
  round, so rational arithmetic is exact where the source is exact;
* the two irrational configuration constants, targetRotation = 2*pi and
  catchWindowAngleMargin = pi/6, are never compared against anything in
  the source logic (the first is only a scale factor for the rendered
  rotation, the second is never read at all), so they are abstracted as
  rational parameters of the construction functions;
* scene-graph and haptic side effects (materials, marker scale, vibrate
  calls) are presentation-layer outputs that no modelled datum depends
  on, and are omitted;
* wall-clock timestamps taken by performance.now() in the source are
  supplied as explicit `now` arguments, and the fire-once setTimeout
  callbacks (all of which are resetToReady) are modelled as a list of
  absolute fire times carried next to the mechanic state.
-/

namespace BmXr

/-- Hand identifiers for the two tracked controllers. -/
inductive Hand
  | left
  | right
deriving DecidableEq

/-- The three per-hand grip states, from the GripState enum of GripSystem.ts. -/
inductive GripState
  | IDLE
  | NEAR
  | GRIPPING
deriving DecidableEq

/-- The four grip event types, from the GripEventType union of GripSystem.ts. -/
inductive GripEventType
  | enterProximity
  | exitProximity
  | gripStart
  | gripEnd
deriving DecidableEq

/-- Payload of a grip event, from the GripEvent interface of GripSystem.ts. -/
structure GripEvent where
  type : GripEventType
  hand : Hand
  distance : ℚ
deriving DecidableEq

/-- Vectors of the scene are triples of rationals. -/
abbrev Vec3 := ℚ × ℚ × ℚ

/-- Grip zone configuration, from the GripZone interface of GripSystem.ts.
The marker field (a THREE.Mesh scene object) and the position field (a
scratch vector that the source allocates but never reads) are
presentation-layer data and are omitted. -/
structure GripZone where
  proximityThreshold : ℚ
  grabThreshold : ℚ
deriving DecidableEq

/-- Per-hand grip tracking data, from the HandGripData interface of
GripSystem.ts (the version with attachment fields). The distance field
starts at Infinity in the source, hence the WithTop wrapper. -/
structure HandGripData where
  state : GripState
  wasNear : Bool
  isNear : Bool
  distance : WithTop ℚ
  gripZone : Option GripZone
  gripButtonPressed : Bool
  wasGripButtonPressed : Bool
  isAttached : Bool
  attachedSide : Option Hand
  attachmentOffset : Vec3
deriving DecidableEq

/-- Initial hand grip data, from GripSystem.createHandGripData. -/
def createHandGripData : HandGripData where
  state := GripState.IDLE
  wasNear := false
  isNear := false
  distance := ⊤
  gripZone := none
  gripButtonPressed := false
  wasGripButtonPressed := false
  isAttached := false
  attachedSide := none
  attachmentOffset := (0, 0, 0)

/-- Per-frame data read from one connected XrMechanicalControllerInput:
the squeeze (grip button) flag, the distance from the controller wrist
position to the grip-zone world position, and the offset vector
controllerWorldPosition minus gripZoneWorldPosition. The source computes
distance and offset with THREE vector operations from the two world
positions; here they are supplied as data of the frame. -/
structure ControllerFrame where
  squeeze : Bool
  distance : ℚ
  offset : Vec3
deriving DecidableEq

/-- Attach a controller to its grip point, from GripSystem.attachController.
The attachment offset is recorded only when a grip zone reference is
present, as in the source; the double haptic pulse is omitted. -/
def attachController (side : Hand) (offset : Vec3) (h : HandGripData) : HandGripData :=
  { h with
    isAttached := true
    attachedSide := some side
    attachmentOffset := if h.gripZone.isSome then offset else h.attachmentOffset }

/-- Detach a controller from its grip point, from GripSystem.detachController.
The haptic pulse is omitted. -/
def detachController (h : HandGripData) : HandGripData :=
  { h with
    isAttached := false
    attachedSide := none
    attachmentOffset := (0, 0, 0) }

/-- State transition handling for one hand, from
GripSystem.handleStateTransition. The four event checks run in source
order on the (previousState, currentState) pair; the exitProximity check
additionally detaches when the hand was attached, the gripStart check
attaches, and the gripEnd check detaches. The hand-grip record passed
here already carries the freshly computed state, as in the source. -/
def handleStateTransition (side : Hand) (d : ℚ) (offset : Vec3)
    (prev : GripState) (h : HandGripData) : HandGripData × List GripEvent :=
  let cur := h.state
  let evEnter : List GripEvent :=
    if prev = GripState.IDLE ∧ cur ≠ GripState.IDLE then
      [⟨GripEventType.enterProximity, side, d⟩] else []
  let h2 :=
    if prev ≠ GripState.IDLE ∧ cur = GripState.IDLE ∧ h.isAttached then
      detachController h else h
  let evExit : List GripEvent :=
    if prev ≠ GripState.IDLE ∧ cur = GripState.IDLE then
      [⟨GripEventType.exitProximity, side, d⟩] else []
  let h3 :=
    if prev ≠ GripState.GRIPPING ∧ cur = GripState.GRIPPING then
      attachController side offset h2 else h2
  let evStart : List GripEvent :=
    if prev ≠ GripState.GRIPPING ∧ cur = GripState.GRIPPING then
      [⟨GripEventType.gripStart, side, d⟩] else []
  let h4 :=
    if prev = GripState.GRIPPING ∧ cur ≠ GripState.GRIPPING then
      detachController h3 else h3
  let evEnd : List GripEvent :=
    if prev = GripState.GRIPPING ∧ cur ≠ GripState.GRIPPING then
      [⟨GripEventType.gripEnd, side, d⟩] else []
  (h4, evEnter ++ evExit ++ evStart ++ evEnd)

/-- Per-hand frame update, from GripSystem.updateHandGrip: store the
previous-frame flags, sample the grip button, record the distance,
recompute the proximity flag, compute the next state from the nested
proximity and grab checks, then run the transition handling. The visual
feedback update is presentation-layer and omitted. -/
def updateHandGrip (gripZone : GripZone) (h : HandGripData)
    (c : ControllerFrame) (side : Hand) : HandGripData × List GripEvent :=
  let h1 :=
    { h with
      wasNear := h.isNear
      wasGripButtonPressed := h.gripButtonPressed
      gripButtonPressed := c.squeeze
      distance := (c.distance : WithTop ℚ)
      isNear := decide (c.distance < gripZone.proximityThreshold) }
  let prev := h.state
  let newState :=
    if c.distance < gripZone.proximityThreshold then
      if c.squeeze = true ∧ c.distance < gripZone.grabThreshold then
        GripState.GRIPPING
      else GripState.NEAR
    else GripState.IDLE
  handleStateTransition side c.distance c.offset prev { h1 with state := newState }

/-- Whole-system grip state: the two optional grip zones, the two
per-hand records, and the two threshold configuration fields, from the
GripSystem class. -/
structure GripSystemState where
  leftGripZone : Option GripZone
  rightGripZone : Option GripZone
  leftHandGrip : HandGripData
  rightHandGrip : HandGripData
  proximityThreshold : ℚ
  grabThreshold : ℚ
deriving DecidableEq

/-- Initial grip system, from the GripSystem constructor: no zones yet,
fresh hand data, thresholds 0.1 m and 0.08 m. -/
def mkGripSystem : GripSystemState where
  leftGripZone := none
  rightGripZone := none
  leftHandGrip := createHandGripData
  rightHandGrip := createHandGripData
  proximityThreshold := 1/10
  grabThreshold := 8/100

/-- Grip zone initialization, from GripSystem.initializeGripZones: a
no-op while the grip markers are not ready; otherwise both zones are
built by copying the configured thresholds, unvalidated, and the hand
records receive references to them. -/
def initializeGripZones (g : GripSystemState) (markersReady : Bool) : GripSystemState :=
  if markersReady then
    let lz : GripZone := { proximityThreshold := g.proximityThreshold, grabThreshold := g.grabThreshold }
    let rz : GripZone := { proximityThreshold := g.proximityThreshold, grabThreshold := g.grabThreshold }
    { g with
      leftGripZone := some lz
      rightGripZone := some rz
      leftHandGrip := { g.leftHandGrip with gripZone := some lz }
      rightHandGrip := { g.rightHandGrip with gripZone := some rz } }
  else g

/-- Per-frame inputs of GripSystem.update: the optional controller frame
for each hand (none models a disconnected controller, whose hand is
skipped). -/
structure GripFrame where
  leftController : Option ControllerFrame
  rightController : Option ControllerFrame
deriving DecidableEq

/-- Whole-system frame update, from GripSystem.update: each hand is
stepped only when both its grip zone and its controller are available;
the left hand is processed before the right, and the attached-controller
visual snap is presentation-layer and omitted. -/
def gripUpdate (g : GripSystemState) (f : GripFrame) : GripSystemState × List GripEvent :=
  let leftStep :=
    match g.leftGripZone, f.leftController with
    | some z, some c => updateHandGrip z g.leftHandGrip c Hand.left
    | _, _ => (g.leftHandGrip, [])
  let rightStep :=
    match g.rightGripZone, f.rightController with
    | some z, some c => updateHandGrip z g.rightHandGrip c Hand.right
    | _, _ => (g.rightHandGrip, [])
  ({ g with leftHandGrip := leftStep.1, rightHandGrip := rightStep.1 },
    leftStep.2 ++ rightStep.2)

/-- External stimuli of the grip system across a session: the deferred
zone initialization (fired once the handlebar markers load) and the
per-frame updates. -/
inductive GripAct
  | initZones (markersReady : Bool)
  | frame (f : GripFrame)
deriving DecidableEq

/-- One stimulus applied to the grip system state. -/
def gripStep (g : GripSystemState) (a : GripAct) : GripSystemState :=
  match a with
  | GripAct.initZones r => initializeGripZones g r
  | GripAct.frame f => (gripUpdate g f).1

/-- A whole session of the grip system from construction. -/
def runGripSystem (acts : List GripAct) : GripSystemState :=
  acts.foldl gripStep mkGripSystem

/-- The six trick states, from the BarspinState enum of context.ts. -/
inductive BarspinState
  | READY
  | INITIATED
  | SPINNING
  | CATCH_WINDOW
  | CAUGHT
  | FAILED
deriving DecidableEq

/-- Spin directions of a trick attempt. -/
inductive SpinDir
  | clockwise
  | counterclockwise
deriving DecidableEq

/-- The nine trick event types, from the BarspinEventType union. -/
inductive BarspinEventType
  | stateChange
  | initiated
  | spinning
  | catchWindowOpen
  | catchWindowClose
  | firstCatch
  | secondCatch
  | success
  | failed
deriving DecidableEq

/-- Payload of a trick event, from the BarspinEvent interface; optional
fields default to none (undefined). -/
structure BarspinEvent where
  type : BarspinEventType
  previousState : Option BarspinState := none
  currentState : BarspinState
  spinDirection : Option SpinDir := none
  spinProgress : Option ℚ := none
  hand : Option Hand := none
deriving DecidableEq

/-- Tunable configuration, from the BarspinConfig interface. -/
structure BarspinConfig where
  minRotationVelocity : ℚ
  initiationTimeout : ℚ
  catchWindowDuration : ℚ
  catchWindowAngleMargin : ℚ
  failureResetDelay : ℚ
  successResetDelay : ℚ
deriving DecidableEq

/-- Default configuration of the BarspinMechanic class. The source value
of catchWindowAngleMargin is pi/6, an irrational constant that no code
path ever reads, so it is taken as a parameter here. -/
def defaultBarspinConfig (angleMargin : ℚ) : BarspinConfig where
  minRotationVelocity := 3/2
  initiationTimeout := 500
  catchWindowDuration := 400
  catchWindowAngleMargin := angleMargin
  failureResetDelay := 1500
  successResetDelay := 2000

/-- Mutable state of the BarspinMechanic class: the private state pair,
the spin tracking fields, the initiation and catch tracking fields, and
the configuration. -/
structure BarspinMechanic where
  state : BarspinState
  previousState : BarspinState
  spinDirection : Option SpinDir
  spinStartTime : ℚ
  spinProgress : ℚ
  currentRotation : ℚ
  targetRotation : ℚ
  initiatingHand : Option Hand
  initiationStartTime : ℚ
  catchWindowStartTime : ℚ
  firstCatchHand : Option Hand
  config : BarspinConfig
deriving DecidableEq

/-- Initial mechanic, from the BarspinMechanic field initializers. The
source sets targetRotation to 2*pi, an irrational constant used only as
a scale factor for currentRotation and never compared against anything,
so it is taken as a parameter here, alongside the equally inert
catchWindowAngleMargin. -/
def mkBarspinMechanic (targetRot angleMargin : ℚ) : BarspinMechanic where
  state := BarspinState.READY
  previousState := BarspinState.READY
  spinDirection := none
  spinStartTime := 0
  spinProgress := 0
  currentRotation := 0
  targetRotation := targetRot
  initiatingHand := none
  initiationStartTime := 0
  catchWindowStartTime := 0
  firstCatchHand := none
  config := defaultBarspinConfig angleMargin

/-- The transition table, from BarspinMechanic.isValidTransition. -/
def validTransitions : BarspinState → List BarspinState
  | BarspinState.READY => [BarspinState.INITIATED]
  | BarspinState.INITIATED => [BarspinState.SPINNING, BarspinState.READY, BarspinState.FAILED]
  | BarspinState.SPINNING => [BarspinState.CATCH_WINDOW, BarspinState.FAILED]
  | BarspinState.CATCH_WINDOW => [BarspinState.CAUGHT, BarspinState.FAILED]
  | BarspinState.CAUGHT => [BarspinState.READY]
  | BarspinState.FAILED => [BarspinState.READY]

/-- Validity check of a requested transition. -/
def isValidTransition (f t : BarspinState) : Bool :=
  (validTransitions f).contains t

/-- Validated state write, from BarspinMechanic.setState: an equal state
is a silent no-op, an invalid transition is a logged no-op, and a valid
transition updates the state pair and emits one stateChange event whose
payload samples the current spin fields. -/
def setState (m : BarspinMechanic) (newState : BarspinState) :
    BarspinMechanic × List BarspinEvent :=
  if newState = m.state then (m, [])
  else if isValidTransition m.state newState = false then (m, [])
  else
    ({ m with previousState := m.state, state := newState },
      [{ type := BarspinEventType.stateChange
         previousState := some m.state
         currentState := newState
         spinDirection := m.spinDirection
         spinProgress := some m.spinProgress }])

/-- Full reset, from BarspinMechanic.resetToReady: unconditional direct
writes of every trick-attempt field, bypassing setState. -/
def resetToReady (m : BarspinMechanic) : BarspinMechanic :=
  { m with
    state := BarspinState.READY
    previousState := BarspinState.READY
    spinDirection := none
    spinStartTime := 0
    spinProgress := 0
    currentRotation := 0
    initiatingHand := none
    initiationStartTime := 0
    catchWindowStartTime := 0
    firstCatchHand := none }

/-- Result of one mechanic entry point: the new mechanic state, the
events emitted in order, and the absolute fire times of any
setTimeout(resetToReady, delay) scheduled during the call. -/
structure MechResult where
  mech : BarspinMechanic
  events : List BarspinEvent
  timers : List ℚ
deriving DecidableEq

/-- Grip release handling, from BarspinMechanic.onGripReleased. The two
grip-system queries read by the source, areBothHandsAttached and
isHandAttached(otherHand), are supplied as the booleans bothAttached and
otherAttached sampled at the event moment. -/
def onGripReleased (m : BarspinMechanic) (hand : Hand)
    (bothAttached otherAttached : Bool) (now : ℚ) : MechResult :=
  match m.state with
  | BarspinState.READY =>
      if bothAttached = false then
        if otherAttached then
          let m1 := { m with initiatingHand := some hand, initiationStartTime := now }
          let s := setState m1 BarspinState.INITIATED
          ⟨s.1, s.2 ++ [{ type := BarspinEventType.initiated
                          currentState := s.1.state
                          hand := some hand }], []⟩
        else ⟨m, [], []⟩
      else ⟨m, [], []⟩
  | BarspinState.INITIATED =>
      let dir := if m.initiatingHand = some Hand.right then SpinDir.clockwise
                 else SpinDir.counterclockwise
      let m1 := { m with
                  spinStartTime := now
                  spinProgress := 0
                  currentRotation := 0
                  spinDirection := some dir }
      let s := setState m1 BarspinState.SPINNING
      ⟨s.1, s.2 ++ [{ type := BarspinEventType.spinning
                      currentState := s.1.state
                      spinDirection := some dir }], []⟩
  | _ => ⟨m, [], []⟩

/-- Grip press handling, from BarspinMechanic.onGripPressed: a re-grip
while INITIATED cancels back to READY; in the catch window the first
press records the catching hand and emits firstCatch, a press from the
recorded hand does nothing, and a press from the other hand moves to
CAUGHT, emits secondCatch then success, and schedules the success
reset. -/
def onGripPressed (m : BarspinMechanic) (hand : Hand) (now : ℚ) : MechResult :=
  match m.state with
  | BarspinState.INITIATED => ⟨resetToReady m, [], []⟩
  | BarspinState.CATCH_WINDOW =>
      match m.firstCatchHand with
      | none =>
          let m1 := { m with firstCatchHand := some hand }
          ⟨m1, [{ type := BarspinEventType.firstCatch
                  currentState := m1.state
                  hand := some hand
                  spinProgress := some m1.spinProgress }], []⟩
      | some fc =>
          if fc ≠ hand then
            let s := setState m BarspinState.CAUGHT
            ⟨s.1,
              s.2 ++
                [{ type := BarspinEventType.secondCatch
                   currentState := s.1.state
                   hand := some hand
                   spinProgress := some s.1.spinProgress },
                 { type := BarspinEventType.success
                   currentState := s.1.state
                   spinDirection := s.1.spinDirection
                   spinProgress := some s.1.spinProgress }],
              [now + m.config.successResetDelay]⟩
          else ⟨m, [], []⟩
  | _ => ⟨m, [], []⟩

/-- Duration of a full spin: the local constant 600 ms appearing in both
updateSpinningState and updateCatchWindowState. -/
def spinDuration : ℚ := 600

/-- INITIATED frame work, from BarspinMechanic.updateInitiatedState: on
timeout, move to FAILED, emit failed, and schedule the failure reset. -/
def updateInitiatedState (m : BarspinMechanic) (now : ℚ) : MechResult :=
  let elapsed := now - m.initiationStartTime
  if elapsed > m.config.initiationTimeout then
    let s := setState m BarspinState.FAILED
    ⟨s.1, s.2 ++ [{ type := BarspinEventType.failed, currentState := s.1.state }],
      [now + m.config.failureResetDelay]⟩
  else ⟨m, [], []⟩

/-- SPINNING frame work, from BarspinMechanic.updateSpinningState:
advance the time-based spin progress against the fixed 600 ms duration,
scale the rendered rotation, and on crossing 0.8 open the catch window
and emit catchWindowOpen. -/
def updateSpinningState (m : BarspinMechanic) (now : ℚ) : MechResult :=
  let elapsed := now - m.spinStartTime
  let progress := min (elapsed / spinDuration) 1
  let m1 := { m with spinProgress := progress, currentRotation := progress * m.targetRotation }
  if progress ≥ 0.8 then
    let m2 := { m1 with catchWindowStartTime := now }
    let s := setState m2 BarspinState.CATCH_WINDOW
    ⟨s.1, s.2 ++ [{ type := BarspinEventType.catchWindowOpen
                    currentState := s.1.state
                    spinProgress := some s.1.spinProgress }], []⟩
  else ⟨m1, [], []⟩

/-- CATCH_WINDOW frame work, from BarspinMechanic.updateCatchWindowState:
keep advancing the spin progress; when the window times out, emit
catchWindowClose, move to FAILED, emit failed, and schedule the failure
reset. -/
def updateCatchWindowState (m : BarspinMechanic) (now : ℚ) : MechResult :=
  let elapsed := now - m.catchWindowStartTime
  let totalElapsed := now - m.spinStartTime
  let progress := min (totalElapsed / spinDuration) 1
  let m1 := { m with spinProgress := progress, currentRotation := progress * m.targetRotation }
  if elapsed > m.config.catchWindowDuration then
    let evClose : BarspinEvent :=
      { type := BarspinEventType.catchWindowClose
        currentState := m1.state
        spinProgress := some m1.spinProgress }
    let s := setState m1 BarspinState.FAILED
    ⟨s.1,
      evClose :: (s.2 ++ [{ type := BarspinEventType.failed
                            currentState := s.1.state
                            spinProgress := some s.1.spinProgress }]),
      [now + m.config.failureResetDelay]⟩
  else ⟨m1, [], []⟩

/-- Per-frame update, from BarspinMechanic.update, dispatching on the
current state; READY, CAUGHT and FAILED do no timed work. The deltaTime
argument is carried by the source signature but the state handlers all
read the wall clock instead. -/
def mechUpdate (m : BarspinMechanic) (_deltaTime now : ℚ) : MechResult :=
  match m.state with
  | BarspinState.INITIATED => updateInitiatedState m now
  | BarspinState.SPINNING => updateSpinningState m now
  | BarspinState.CATCH_WINDOW => updateCatchWindowState m now
  | _ => ⟨m, [], []⟩

/-- A mechanic together with its pending deferred resets and the log of
all emitted events. -/
structure MechSys where
  mech : BarspinMechanic
  timers : List ℚ
  log : List BarspinEvent
deriving DecidableEq

/-- External stimuli of the mechanic across a session. The gripEnd
stimulus carries the yaw angular velocity that the initiating controller
reports at release time (XrMechanicalControllerInput.yawAngularVelocity);
the mechanic never reads it. The timerFire stimulus delivers the
earliest due deferred callback. -/
inductive MechAct
  | gripEnd (hand : Hand) (bothAttached otherAttached : Bool) (yawVelocity : ℚ) (now : ℚ)
  | gripStart (hand : Hand) (now : ℚ)
  | frame (deltaTime now : ℚ)
  | manualReset
  | timerFire (now : ℚ)
deriving DecidableEq

/-- Fold one entry-point result into the running system. -/
def applyResult (s : MechSys) (r : MechResult) : MechSys :=
  ⟨r.mech, s.timers ++ r.timers, s.log ++ r.events⟩

/-- One stimulus applied to the mechanic system. A firing timer runs the
scheduled callback, which is resetToReady with no state guard; a manual
reset is a direct external resetToReady call and cancels nothing. -/
def mechStep (s : MechSys) (a : MechAct) : MechSys :=
  match a with
  | MechAct.gripEnd h ba oa _yv now => applyResult s (onGripReleased s.mech h ba oa now)
  | MechAct.gripStart h now => applyResult s (onGripPressed s.mech h now)
  | MechAct.frame dt now => applyResult s (mechUpdate s.mech dt now)
  | MechAct.manualReset => { s with mech := resetToReady s.mech }
  | MechAct.timerFire now =>
      match s.timers.find? (fun t => decide (t ≤ now)) with
      | none => s
      | some t => { s with mech := resetToReady s.mech, timers := s.timers.erase t }

/-- A whole session of the mechanic from construction. -/
def runMech (targetRot angleMargin : ℚ) (acts : List MechAct) : MechSys :=
  acts.foldl mechStep ⟨mkBarspinMechanic targetRot angleMargin, [], []⟩

/-- Reaction of one registered listener when it receives an event: it may
do nothing, register a fresh (passive) listener via addEventListener, or
remove the first listener with a given identity via removeEventListener.
This is the abstraction of the listener callbacks relevant to the
delivery contract; identities stand for the function objects that the
source compares with indexOf. -/
inductive ListenerAct
  | passive
  | append (k : ℕ)
  | removeId (k : ℕ)
deriving DecidableEq

/-- A registered listener: its identity and its reaction. -/
structure Listener where
  id : ℕ
  act : ListenerAct
deriving DecidableEq

/-- Effect of one listener reaction on the live listener array:
addEventListener pushes at the end; removeEventListener looks up the
first occurrence with indexOf and splices it out. -/
def applyListenerAct (a : ListenerAct) (l : List Listener) : List Listener :=
  match a with
  | ListenerAct.passive => l
  | ListenerAct.append k => l ++ [⟨k, ListenerAct.passive⟩]
  | ListenerAct.removeId k =>
      match l.findIdx? (fun x => x.id = k) with
      | none => l
      | some j => l.eraseIdx j

/-- The delivery loop of emitEvent in both GripSystem.ts and context.ts:
a JS for-of over the live listener array, which visits index i of the
current array while i is below the current length. The fuel argument
bounds the loop; since only listeners of the initial array can append,
and each appends at most one passive listener when visited, twice the
initial length plus two always suffices. Returns the final array and the
identities delivered to, in order. -/
def emitLoop : ℕ → ℕ → List Listener → List ℕ → List Listener × List ℕ
  | 0, _, l, acc => (l, acc)
  | fuel + 1, i, l, acc =>
      if h : i < l.length then
        let x := l.get ⟨i, h⟩
        emitLoop fuel (i + 1) (applyListenerAct x.act l) (acc ++ [x.id])
      else (l, acc)

/-- One synchronous emission over a listener array, from emitEvent. -/
def emitEvent (l : List Listener) : List Listener × List ℕ :=
  emitLoop (2 * l.length + 2) 0 l []

/-- Canonical trick attempt driven to SPINNING: the right hand releases
at t=0 while the left is attached (the controller reporting yaw angular
velocity v at release), the left hand releases at t=100, and one frame
update runs at tCheck. -/
def attemptActs (v tCheck : ℚ) : List MechAct :=
  [ MechAct.gripEnd Hand.right false true v 0,
    MechAct.gripEnd Hand.left false false v 100,
    MechAct.frame 0 tCheck ]

/-- A mechanic mid-spin: the canonical attempt checked at t=400, where
spin progress is 1/2 and the state is still SPINNING. -/
def spinningMech : BarspinMechanic :=
  (runMech 1 1 (attemptActs 2 400)).mech

/-- A mechanic inside the catch window: the canonical attempt checked at
t=600, where spin progress is 5/6 and the window has opened. -/
def catchWindowMech : BarspinMechanic :=
  (runMech 1 1 (attemptActs 2 600)).mech

/-- The catch-window mechanic after a first catching press by the left
hand at t=650. -/
def firstCatchMech : BarspinMechanic :=
  (onGripPressed catchWindowMech Hand.left 650).mech

/-- Session exhibiting the stale deferred reset: an initiation at t=0
times out at t=501 (scheduling a reset at t=2001), an external
resetToReady intervenes, a fresh attempt reaches SPINNING by t=700, and
the stale timer then fires at t=2001. -/
def staleResetTrace : List MechAct :=
  [ MechAct.gripEnd Hand.right false true 2 0,
    MechAct.frame 0 501,
    MechAct.manualReset,
    MechAct.gripEnd Hand.right false true 2 600,
    MechAct.gripEnd Hand.left false false 2 700,
    MechAct.timerFire 2001 ]

/-- A grip system whose public proximityThreshold field has been set
below the grabThreshold before zone initialization runs. -/
def invertedGripSystem : GripSystemState :=
  { mkGripSystem with proximityThreshold := 5/100 }

/-- Grip session in which the left controller arrives already squeezing
at 5 cm from its marker on the first frame after zone initialization. -/
def attachTrace : List GripAct :=
  [ GripAct.initZones true,
    GripAct.frame ⟨some ⟨true, 1/20, (0, 0, 0)⟩, none⟩ ]

/-- Attachment invariant of the grip system: an attached hand is in the
GRIPPING state. -/
def attachImpliesGripping (g : GripSystemState) : Prop :=
  (g.leftHandGrip.isAttached = true → g.leftHandGrip.state = GripState.GRIPPING) ∧
  (g.rightHandGrip.isAttached = true → g.rightHandGrip.state = GripState.GRIPPING)

theorem handleStateTransition_fst_state (side : Hand) (d : ℚ) (off : Vec3)
    (prev : GripState) (h : HandGripData) :
    (handleStateTransition side d off prev h).1.state = h.state := by
  simp only [handleStateTransition, attachController, detachController]
  split_ifs <;> rfl

theorem handleStateTransition_fst_isNear (side : Hand) (d : ℚ) (off : Vec3)
    (prev : GripState) (h : HandGripData) :
    (handleStateTransition side d off prev h).1.isNear = h.isNear := by
  simp only [handleStateTransition, attachController, detachController]
  split_ifs <;> rfl

theorem handleStateTransition_inv (side : Hand) (d : ℚ) (off : Vec3)
    (prev : GripState) (h : HandGripData)
    (hprev : h.isAttached = true → prev = GripState.GRIPPING) :
    (handleStateTransition side d off prev h).1.isAttached = true →
      (handleStateTransition side d off prev h).1.state = GripState.GRIPPING := by
  cases hs : h.state <;> cases prev <;>
    simp_all [handleStateTransition, attachController, detachController]

theorem updateHandGrip_inv (z : GripZone) (h : HandGripData) (c : ControllerFrame)
    (side : Hand) (hInv : h.isAttached = true → h.state = GripState.GRIPPING) :
    (updateHandGrip z h c side).1.isAttached = true →
      (updateHandGrip z h c side).1.state = GripState.GRIPPING := by
  simp only [updateHandGrip]
  exact handleStateTransition_inv _ _ _ _ _ (fun ha => hInv ha)

theorem gripStep_inv (g : GripSystemState) (a : GripAct)
    (hInv : attachImpliesGripping g) : attachImpliesGripping (gripStep g a) := by
  obtain ⟨hL, hR⟩ := hInv
  cases a with
  | initZones r =>
      by_cases hr : r = true <;>
        simp_all [gripStep, initializeGripZones, attachImpliesGripping]
  | frame f =>
      constructor
      · cases hz : g.leftGripZone <;> cases hc : f.leftController <;>
          simp_all [gripStep, gripUpdate, attachImpliesGripping]
        exact updateHandGrip_inv _ _ _ _ hL
      · cases hz : g.rightGripZone <;> cases hc : f.rightController <;>
          simp_all [gripStep, gripUpdate, attachImpliesGripping]
        exact updateHandGrip_inv _ _ _ _ hR

theorem runGripSystem_inv_aux (acts : List GripAct) (g : GripSystemState)
    (hInv : attachImpliesGripping g) : attachImpliesGripping (acts.foldl gripStep g) := by
  induction acts generalizing g with
  | nil => exact hInv
  | cons a rest ih => exact ih _ (gripStep_inv g a hInv)

theorem emitLoop_passive (l : List Listener)
    (hp : ∀ x ∈ l, x.act = ListenerAct.passive) :
    ∀ (fuel i : ℕ) (acc : List ℕ), l.length ≤ i + fuel →
      emitLoop fuel i l acc = (l, acc ++ (l.drop i).map Listener.id) := by
  intro fuel
  induction fuel with
  | zero =>
      intro i acc hle
      rw [List.drop_eq_nil_of_le (by omega)]
      simp [emitLoop]
  | succ fuel ih =>
      intro i acc hle
      by_cases hi : i < l.length
      · have hx : l.get ⟨i, hi⟩ ∈ l := List.get_mem l i hi
        have hpass := hp _ hx
        rw [emitLoop]
        simp only [hi, dif_pos, hpass, applyListenerAct]
        rw [ih (i + 1) _ (by omega)]
        rw [List.drop_eq_getElem_cons hi, List.map_cons]
        simp [List.get_eq_getElem]
      · rw [List.drop_eq_nil_of_le (by omega)]
        rw [emitLoop]
        simp [hi]

/-- C1: a requested transition whose (from, to) pair is not in the
transition table is rejected by setState as a no-op, for every mechanic
state: the state record is returned unchanged and no stateChange event
is emitted (and setState is a total function, so nothing is thrown). -/
theorem invalid_transition_noop (m : BarspinMechanic) (t : BarspinState)
    (hpair : isValidTransition m.state t = false) :
    setState m t = (m, []) := by
  unfold setState
  split_ifs <;> rfl

/-- Witness for C1: requesting READY to SPINNING on the freshly built
mechanic, a pair absent from the table, leaves it untouched and emits
nothing. -/
theorem invalid_transition_noop_witness :
    isValidTransition (mkBarspinMechanic 1 1).state BarspinState.SPINNING = false ∧
    setState (mkBarspinMechanic 1 1) BarspinState.SPINNING = (mkBarspinMechanic 1 1, []) :=
  ⟨by decide,
    invalid_transition_noop (mkBarspinMechanic 1 1) BarspinState.SPINNING (by decide)⟩

/-- C6: after every per-hand update, isNear equals the freshly
recomputed proximity test, and the new grip state is GRIPPING exactly
when the hand is inside the proximity threshold with the button held
inside the grab threshold, NEAR exactly when inside proximity but not
grabbing, and IDLE exactly when outside proximity. -/
theorem grip_state_classification (z : GripZone) (h : HandGripData)
    (c : ControllerFrame) (side : Hand) :
    (updateHandGrip z h c side).1.isNear = decide (c.distance < z.proximityThreshold) ∧
    ((updateHandGrip z h c side).1.state = GripState.GRIPPING ↔
      c.distance < z.proximityThreshold ∧ c.squeeze = true ∧ c.distance < z.grabThreshold) ∧
    ((updateHandGrip z h c side).1.state = GripState.NEAR ↔
      c.distance < z.proximityThreshold ∧ ¬(c.squeeze = true ∧ c.distance < z.grabThreshold)) ∧
    ((updateHandGrip z h c side).1.state = GripState.IDLE ↔
      ¬(c.distance < z.proximityThreshold)) := by
  simp only [updateHandGrip, handleStateTransition_fst_state, handleStateTransition_fst_isNear]
  by_cases h1 : c.distance < z.proximityThreshold <;>
    by_cases h2 : c.squeeze = true ∧ c.distance < z.grabThreshold <;>
    simp [h1, h2]

theorem handleStateTransition_events_card (side : Hand) (d : ℚ) (off : Vec3)
    (prev : GripState) (h : HandGripData) :
    (handleStateTransition side d off prev h).2.length ≤ 2 ∧
    ((handleStateTransition side d off prev h).2.length = 2 →
      (prev = GripState.IDLE ∧ h.state = GripState.GRIPPING) ∨
      (prev = GripState.GRIPPING ∧ h.state = GripState.IDLE)) := by
  cases prev <;> cases hs : h.state <;> simp [handleStateTransition, hs]

/-- C7 amended: in one per-hand update at most one proximity-boundary
event and at most one grip-boundary event fire, so at most two grip
events fire for that hand, and two fire together only on a direct jump
from IDLE to GRIPPING or from GRIPPING to IDLE. -/
theorem grip_events_at_most_two (z : GripZone) (h : HandGripData)
    (c : ControllerFrame) (side : Hand) :
    (updateHandGrip z h c side).2.length ≤ 2 ∧
    ((updateHandGrip z h c side).2.length = 2 →
      (h.state = GripState.IDLE ∧ (updateHandGrip z h c side).1.state = GripState.GRIPPING) ∨
      (h.state = GripState.GRIPPING ∧ (updateHandGrip z h c side).1.state = GripState.IDLE)) := by
  simp only [updateHandGrip, handleStateTransition_fst_state]
  exact handleStateTransition_events_card side c.distance c.offset h.state _

/-- Witness for C7 amended: applied at the concrete IDLE-to-GRIPPING
update below, with the inner bound discharged there. -/
theorem grip_events_at_most_two_witness :
    (updateHandGrip ⟨1/10, 8/100⟩ createHandGripData ⟨true, 1/20, (0, 0, 0)⟩ Hand.left).2.length ≤ 2 ∧
    ((createHandGripData.state = GripState.IDLE ∧
      (updateHandGrip ⟨1/10, 8/100⟩ createHandGripData ⟨true, 1/20, (0, 0, 0)⟩ Hand.left).1.state = GripState.GRIPPING) ∨
     (createHandGripData.state = GripState.GRIPPING ∧
      (updateHandGrip ⟨1/10, 8/100⟩ createHandGripData ⟨true, 1/20, (0, 0, 0)⟩ Hand.left).1.state = GripState.IDLE)) := by
  refine ⟨(grip_events_at_most_two ⟨1/10, 8/100⟩ createHandGripData ⟨true, 1/20, (0, 0, 0)⟩ Hand.left).1,
    (grip_events_at_most_two ⟨1/10, 8/100⟩ createHandGripData ⟨true, 1/20, (0, 0, 0)⟩ Hand.left).2 ?_⟩
  norm_num [updateHandGrip, handleStateTransition, attachController, detachController,
    createHandGripData]
  split_ifs <;> simp_all

/-- C7 counterexample: on the first frame after zone initialization, a
hand arriving already squeezing at 5 cm jumps IDLE to GRIPPING and the
update fires two grip events for that same hand, enterProximity followed
by gripStart, refuting the at-most-one-event-per-hand-per-update claim. -/
theorem same_hand_two_events :
    ((gripUpdate (runGripSystem [GripAct.initZones true])
        ⟨some ⟨true, 1/20, (0, 0, 0)⟩, none⟩).2).map GripEvent.type =
      [GripEventType.enterProximity, GripEventType.gripStart] ∧
    ((gripUpdate (runGripSystem [GripAct.initZones true])
        ⟨some ⟨true, 1/20, (0, 0, 0)⟩, none⟩).2).map GripEvent.hand =
      [Hand.left, Hand.left] := by
  constructor <;>
  · norm_num [gripUpdate, runGripSystem, gripStep, initializeGripZones, mkGripSystem,
      createHandGripData, updateHandGrip, handleStateTransition, attachController,
      detachController]
    split_ifs <;> simp_all

/-- C8 amended: when no listener mutates the listener array during the
emission, the event is delivered synchronously in registration order,
exactly once to each listener registered when the emission begins, and
the array is unchanged. -/
theorem emission_in_order_when_unmodified (l : List Listener)
    (hp : ∀ x ∈ l, x.act = ListenerAct.passive) :
    emitEvent l = (l, l.map Listener.id) := by
  have h := emitLoop_passive l hp (2 * l.length + 2) 0 [] (by omega)
  simpa [emitEvent] using h

/-- Witness for C8 amended: two passive listeners are each delivered to
once, in registration order. -/
theorem emission_in_order_when_unmodified_witness :
    emitEvent [⟨1, ListenerAct.passive⟩, ⟨2, ListenerAct.passive⟩] =
      ([⟨1, ListenerAct.passive⟩, ⟨2, ListenerAct.passive⟩], [1, 2]) :=
  emission_in_order_when_unmodified
    [⟨1, ListenerAct.passive⟩, ⟨2, ListenerAct.passive⟩] (by decide)

/-- C8 counterexample: the emission loop walks the live array, so a
listener registered during the emission by the in-flight listener also
receives the event even though it was not registered when emission
began, and a listener that removes a not-yet-visited listener prevents
its delivery even though it was registered when emission began. -/
theorem emission_live_list_counterexample :
    (emitEvent [⟨1, ListenerAct.append 2⟩]).2 = [1, 2] ∧
    ([⟨1, ListenerAct.append 2⟩] : List Listener).map Listener.id = [1] ∧
    (emitEvent [⟨1, ListenerAct.removeId 2⟩, ⟨2, ListenerAct.passive⟩,
        ⟨3, ListenerAct.passive⟩]).2 = [1, 3] ∧
    ([⟨1, ListenerAct.removeId 2⟩, ⟨2, ListenerAct.passive⟩,
        ⟨3, ListenerAct.passive⟩] : List Listener).map Listener.id = [1, 2, 3] := by decide

/-- C9 amended: every grip zone built by initializeGripZones from the
default construction-time thresholds satisfies grabThreshold below
proximityThreshold; the function itself, however, performs no
validation of the ordering. -/
theorem default_zone_ordering (ready : Bool) (z : GripZone)
    (hz : (initializeGripZones mkGripSystem ready).leftGripZone = some z ∨
      (initializeGripZones mkGripSystem ready).rightGripZone = some z) :
    z.grabThreshold < z.proximityThreshold := by
  cases ready with
  | false => simp [initializeGripZones, mkGripSystem] at hz
  | true =>
      rcases hz with h | h <;>
      · simp [initializeGripZones, mkGripSystem] at h
        rw [← h]
        norm_num

/-- Witness for C9 amended: the left zone built from the default
thresholds is 0.08 below 0.1. -/
theorem default_zone_ordering_witness :
    (⟨1/10, 8/100⟩ : GripZone).grabThreshold < (⟨1/10, 8/100⟩ : GripZone).proximityThreshold :=
  default_zone_ordering true ⟨1/10, 8/100⟩
    (Or.inl (by simp [initializeGripZones, mkGripSystem]))

/-- C9 counterexample: initializeGripZones copies whatever thresholds
the public configuration fields hold; with the proximity threshold set
below the default grab threshold it installs inverted zones into both
the zone slots and the hand records, with no rejection and no
correction. -/
theorem inverted_zone_installed :
    (initializeGripZones invertedGripSystem true).leftGripZone =
      some ⟨5/100, 8/100⟩ ∧
    (initializeGripZones invertedGripSystem true).leftHandGrip.gripZone =
      some ⟨5/100, 8/100⟩ ∧
    ¬((8 : ℚ)/100 < 5/100) := by
  refine ⟨?_, ?_, by norm_num⟩ <;>
    simp [initializeGripZones, invertedGripSystem, mkGripSystem, createHandGripData]

/-- C5: after every sequence of grip-system stimuli from construction,
including zone initializations that may or may not find the markers and
frames where either controller is absent, an attached hand is in the
GRIPPING state. -/
theorem attached_implies_gripping (acts : List GripAct) :
    ((runGripSystem acts).leftHandGrip.isAttached = true →
      (runGripSystem acts).leftHandGrip.state = GripState.GRIPPING) ∧
    ((runGripSystem acts).rightHandGrip.isAttached = true →
      (runGripSystem acts).rightHandGrip.state = GripState.GRIPPING) :=
  runGripSystem_inv_aux acts mkGripSystem
    ⟨fun ha => by simp [mkGripSystem, createHandGripData] at ha,
     fun ha => by simp [mkGripSystem, createHandGripData] at ha⟩

theorem attachTrace_left_attached :
    (runGripSystem attachTrace).leftHandGrip.isAttached = true := by
  norm_num [runGripSystem, attachTrace, gripStep, gripUpdate, initializeGripZones,
    mkGripSystem, createHandGripData, updateHandGrip, handleStateTransition,
    attachController, detachController]
  split_ifs <;> simp_all

/-- Witness for C5: the session in which the left controller squeezes at
5 cm on the first frame ends with the left hand attached, and the
invariant then forces its state to be GRIPPING. -/
theorem attached_implies_gripping_witness :
    (runGripSystem attachTrace).leftHandGrip.isAttached = true ∧
    (runGripSystem attachTrace).leftHandGrip.state = GripState.GRIPPING :=
  ⟨attachTrace_left_attached,
    (attached_implies_gripping attachTrace).1 attachTrace_left_attached⟩

theorem onGripPressed_firstCatch_eq (m : BarspinMechanic) (h : Hand) (t : ℚ)
    (hcw : m.state = BarspinState.CATCH_WINDOW) (hfc : m.firstCatchHand = none) :
    onGripPressed m h t =
      ⟨{ m with firstCatchHand := some h },
        [{ type := BarspinEventType.firstCatch, currentState := m.state,
           hand := some h, spinProgress := some m.spinProgress }], []⟩ := by
  unfold onGripPressed
  rw [hcw, hfc]

/-- C4: grip presses inside the catch window pair up only across
distinct hands. With no catch recorded, a press records the catching
hand and emits exactly firstCatch, without leaving CATCH_WINDOW; a
second press from the same hand is a complete no-op (no event, no
transition, the recorded hand untouched, and in particular no success);
a press from the other hand moves to CAUGHT and emits stateChange,
secondCatch, then success. -/
theorem catch_window_distinct_hands (m : BarspinMechanic) (h h' : Hand) (t₁ t₂ : ℚ)
    (hcw : m.state = BarspinState.CATCH_WINDOW) (hfc : m.firstCatchHand = none) :
    (onGripPressed m h t₁).mech.state = BarspinState.CATCH_WINDOW ∧
    (onGripPressed m h t₁).mech.firstCatchHand = some h ∧
    (onGripPressed m h t₁).events.map BarspinEvent.type = [BarspinEventType.firstCatch] ∧
    onGripPressed (onGripPressed m h t₁).mech h t₂ = ⟨(onGripPressed m h t₁).mech, [], []⟩ ∧
    (h' ≠ h →
      (onGripPressed (onGripPressed m h t₁).mech h' t₂).mech.state = BarspinState.CAUGHT ∧
      (onGripPressed (onGripPressed m h t₁).mech h' t₂).events.map BarspinEvent.type =
        [BarspinEventType.stateChange, BarspinEventType.secondCatch,
          BarspinEventType.success]) := by
  have e1 := onGripPressed_firstCatch_eq m h t₁ hcw hfc
  rw [e1]
  refine ⟨by simp [hcw], by simp, by simp, ?_, ?_⟩
  · unfold onGripPressed
    simp [hcw]
  · intro hne
    have e2 : onGripPressed { m with firstCatchHand := some h } h' t₂ =
        ⟨{ m with
            firstCatchHand := some h
            previousState := m.state
            state := BarspinState.CAUGHT },
          [{ type := BarspinEventType.stateChange, previousState := some m.state,
             currentState := BarspinState.CAUGHT, spinDirection := m.spinDirection,
             spinProgress := some m.spinProgress },
           { type := BarspinEventType.secondCatch,
             currentState := BarspinState.CAUGHT, hand := some h',
             spinProgress := some m.spinProgress },
           { type := BarspinEventType.success,
             currentState := BarspinState.CAUGHT, spinDirection := m.spinDirection,
             spinProgress := some m.spinProgress }],
          [t₂ + m.config.successResetDelay]⟩ := by
      unfold onGripPressed
      simp only [hcw]
      rw [if_pos (Ne.symm hne)]
      unfold setState
      rw [if_neg (fun hx => BarspinState.noConfusion hx),
        if_neg (fun hx => Bool.noConfusion hx)]
      simp [hcw]
    rw [e2]
    exact ⟨rfl, by simp⟩

theorem catchWindowMech_state :
    catchWindowMech.state = BarspinState.CATCH_WINDOW := by
  simp [catchWindowMech, runMech, attemptActs, mechStep, applyResult, onGripReleased,
    onGripPressed, mechUpdate, updateInitiatedState, updateSpinningState,
    updateCatchWindowState, setState, isValidTransition, validTransitions,
    resetToReady, mkBarspinMechanic, defaultBarspinConfig, spinDuration, min_def]
  norm_num

theorem catchWindowMech_firstCatch :
    catchWindowMech.firstCatchHand = none := by
  simp [catchWindowMech, runMech, attemptActs, mechStep, applyResult, onGripReleased,
    onGripPressed, mechUpdate, updateInitiatedState, updateSpinningState,
    updateCatchWindowState, setState, isValidTransition, validTransitions,
    resetToReady, mkBarspinMechanic, defaultBarspinConfig, spinDuration, min_def]
  norm_num

/-- Witness for C4: the reachable catch-window mechanic of the canonical
attempt, pressed by the left hand then judged against a right-hand
second press. -/
theorem catch_window_distinct_hands_witness :
    (catchWindowMech.state = BarspinState.CATCH_WINDOW ∧
      catchWindowMech.firstCatchHand = none) ∧
    ((onGripPressed catchWindowMech Hand.left 650).mech.state = BarspinState.CATCH_WINDOW ∧
     (onGripPressed catchWindowMech Hand.left 650).mech.firstCatchHand = some Hand.left ∧
     (onGripPressed catchWindowMech Hand.left 650).events.map BarspinEvent.type =
       [BarspinEventType.firstCatch] ∧
     onGripPressed (onGripPressed catchWindowMech Hand.left 650).mech Hand.left 700 =
       ⟨(onGripPressed catchWindowMech Hand.left 650).mech, [], []⟩ ∧
     (Hand.right ≠ Hand.left →
       (onGripPressed (onGripPressed catchWindowMech Hand.left 650).mech Hand.right 700).mech.state =
         BarspinState.CAUGHT ∧
       (onGripPressed (onGripPressed catchWindowMech Hand.left 650).mech Hand.right 700).events.map
           BarspinEvent.type =
         [BarspinEventType.stateChange, BarspinEventType.secondCatch,
           BarspinEventType.success])) :=
  ⟨⟨catchWindowMech_state, catchWindowMech_firstCatch⟩,
    catch_window_distinct_hands catchWindowMech Hand.left Hand.right 650 700
      catchWindowMech_state catchWindowMech_firstCatch⟩

/-- C10: while in the catch window with a first catch already recorded,
a grip release from the recorded hand is a complete no-op (no state
change, no event, the recorded hand kept), and a subsequent press from
the other hand still reaches CAUGHT and emits success even though the
first-catch hand is no longer gripping. -/
theorem release_preserves_first_catch (m : BarspinMechanic) (h h' : Hand)
    (ba oa : Bool) (t₁ t₂ : ℚ)
    (hcw : m.state = BarspinState.CATCH_WINDOW) (hfc : m.firstCatchHand = some h)
    (hne : h' ≠ h) :
    onGripReleased m h ba oa t₁ = ⟨m, [], []⟩ ∧
    (onGripPressed (onGripReleased m h ba oa t₁).mech h' t₂).mech.state =
      BarspinState.CAUGHT ∧
    BarspinEventType.success ∈
      (onGripPressed (onGripReleased m h ba oa t₁).mech h' t₂).events.map
        BarspinEvent.type := by
  have e1 : onGripReleased m h ba oa t₁ = ⟨m, [], []⟩ := by
    unfold onGripReleased
    rw [hcw]
  refine ⟨e1, ?_, ?_⟩ <;>
  · rw [e1]
    unfold onGripPressed
    simp only [hcw, hfc]
    rw [if_pos (Ne.symm hne)]
    unfold setState
    rw [if_neg (by rw [hcw]; exact fun hx => BarspinState.noConfusion hx),
      if_neg (by rw [hcw]; exact fun hx => Bool.noConfusion hx)]
    try simp

theorem firstCatchMech_state :
    firstCatchMech.state = BarspinState.CATCH_WINDOW := by
  unfold firstCatchMech
  rw [onGripPressed_firstCatch_eq catchWindowMech Hand.left 650
    catchWindowMech_state catchWindowMech_firstCatch]
  exact catchWindowMech_state

theorem firstCatchMech_first :
    firstCatchMech.firstCatchHand = some Hand.left := by
  unfold firstCatchMech
  rw [onGripPressed_firstCatch_eq catchWindowMech Hand.left 650
    catchWindowMech_state catchWindowMech_firstCatch]

/-- Witness for C10: the reachable catch-window mechanic that recorded
the left hand as first catch, released by the left hand and then pressed
by the right hand. -/
theorem release_preserves_first_catch_witness :
    onGripReleased firstCatchMech Hand.left false false 660 = ⟨firstCatchMech, [], []⟩ ∧
    (onGripPressed (onGripReleased firstCatchMech Hand.left false false 660).mech
        Hand.right 700).mech.state = BarspinState.CAUGHT ∧
    BarspinEventType.success ∈
      (onGripPressed (onGripReleased firstCatchMech Hand.left false false 660).mech
          Hand.right 700).events.map BarspinEvent.type :=
  release_preserves_first_catch firstCatchMech Hand.left Hand.right false false 660 700
    firstCatchMech_state firstCatchMech_first (fun hx => Hand.noConfusion hx)

/-- C3 failing run: after a failure schedules a deferred reset for
t=2001, an external resetToReady and a fresh attempt put the mechanic in
SPINNING with the stale timer still pending; when the timer fires, its
unguarded resetToReady callback forces the state of the in-progress
attempt from SPINNING back to READY, the very transition the claim
forbids. -/
theorem stale_timer_reset_clobbers_attempt :
    (runMech 1 1 (staleResetTrace.take 5)).mech.state = BarspinState.SPINNING ∧
    (runMech 1 1 (staleResetTrace.take 5)).timers = [2001] ∧
    (runMech 1 1 staleResetTrace).mech.state = BarspinState.READY ∧
    (runMech 1 1 staleResetTrace).timers = [] := by
  refine ⟨?_, ?_, ?_, ?_⟩ <;>
    simp [runMech, staleResetTrace, mechStep, applyResult, onGripReleased, onGripPressed,
      mechUpdate, updateInitiatedState, updateSpinningState, updateCatchWindowState,
      setState, isValidTransition, validTransitions, resetToReady, mkBarspinMechanic,
      defaultBarspinConfig, spinDuration, min_def, List.find?, List.erase] <;>
    norm_num

/-- C2 counterexample: two canonical attempts whose initiating yaw
angular velocities differ (2 and 3 rad/s, both above the configured 1.5
rad/s gate) produce identical mechanic runs, so their spin durations are
equal, refuting the claim that distinct initiation velocities in the
interpolation range yield distinct spin durations. -/
theorem spin_duration_ignores_velocity :
    runMech 1 1 (attemptActs 2 400) = runMech 1 1 (attemptActs 3 400) ∧
    (runMech 1 1 (attemptActs 2 400)).mech.state = BarspinState.SPINNING ∧
    (runMech 1 1 (attemptActs 2 400)).mech.spinProgress = 1/2 ∧
    (2 : ℚ) ≠ 3 := by
  refine ⟨rfl, ?_, ?_, by norm_num⟩ <;>
    simp [runMech, attemptActs, mechStep, applyResult, onGripReleased, onGripPressed,
      mechUpdate, updateInitiatedState, updateSpinningState, updateCatchWindowState,
      setState, isValidTransition, validTransitions, resetToReady, mkBarspinMechanic,
      defaultBarspinConfig, spinDuration, min_def] <;>
    norm_num

/-- C2 amended: the spin duration is the fixed 600 ms constant of
updateSpinningState, independent of the yaw angular velocity reported at
initiation: attempts differing only in that velocity run identically,
and every SPINNING frame sets spinProgress to the elapsed time over 600
clamped at one. -/
theorem spin_duration_constant_600 (v₁ v₂ tCheck : ℚ) (m : BarspinMechanic)
    (dt now : ℚ) (hm : m.state = BarspinState.SPINNING) :
    runMech 1 1 (attemptActs v₁ tCheck) = runMech 1 1 (attemptActs v₂ tCheck) ∧
    (mechUpdate m dt now).mech.spinProgress =
      min ((now - m.spinStartTime) / spinDuration) 1 := by
  constructor
  · rfl
  · have e1 : mechUpdate m dt now = updateSpinningState m now := by
      unfold mechUpdate
      rw [hm]
    rw [e1]
    unfold updateSpinningState
    dsimp only
    split_ifs with hp
    · unfold setState
      rw [if_neg (by simp [hm]),
        if_neg (by simp [hm, isValidTransition, validTransitions])]
    · simp

theorem spinningMech_state : spinningMech.state = BarspinState.SPINNING := by
  simp [spinningMech, runMech, attemptActs, mechStep, applyResult, onGripReleased,
    onGripPressed, mechUpdate, updateInitiatedState, updateSpinningState,
    updateCatchWindowState, setState, isValidTransition, validTransitions,
    resetToReady, mkBarspinMechanic, defaultBarspinConfig, spinDuration, min_def]
  norm_num

/-- Witness for C2 amended: two concrete velocities give the same run,
and the concrete mid-spin mechanic updated at t=450 takes the clamped
600 ms progress value. -/
theorem spin_duration_constant_600_witness :
    (runMech 1 1 (attemptActs 2 500) = runMech 1 1 (attemptActs 3 500)) ∧
    (mechUpdate spinningMech 0 450).mech.spinProgress =
      min ((450 - spinningMech.spinStartTime) / spinDuration) 1 :=
  spin_duration_constant_600 2 3 500 spinningMech 0 450 spinningMech_state

end BmXr
